import Mathlib

/-!
Shallow embedding of the Orange Romania account client
(custom_components/orange/api.py) and proofs about its specification.

Modelling conventions:
* Python floats that carry money / point amounts are modelled as exact
  rationals.
* Python ints are modelled as unbounded Int, matching Python semantics.
* A JSON object is modelled as a structure of Option-valued fields; none
  models a key that is absent (or null where the code collapses null with
  the default through a trailing "or"-coalescing or a truthiness test).
* An HTTP exchange is modelled by an environment value: either a response
  with a status code and a body that parses (or fails to parse) into the
  expected shape, or a transport-level error, which in the code surfaces
  as a raised exception.
* Raised exceptions are modelled with Except; the state component is
  threaded explicitly.
-/

namespace Orange

/-- Outcome of an HTTP request whose body the client parses as JSON of
shape A: a response carrying a status code and the parse outcome, or a
transport-level failure (raises in the client). -/
inductive Http (A : Type) where
  | response (status : Nat) (body : Except Unit A)
  | netError

/-- Outcome of an HTTP request whose body is never parsed (the login page
and the credential POST only have their status and final URL inspected). -/
inductive HtmlHttp where
  | response (status : Nat)
  | netError
deriving DecidableEq

/-- One element of the profiles array (api.py uses the keys id and name;
id is read at line 310, name at line 344). -/
structure Profile where
  id : Option Int := none
  name : Option String := none
deriving DecidableEq, Repr

/-- Body of the profiles endpoint: a JSON object with a profiles array
(read with a default of the empty list at line 216). -/
structure ProfilesResp where
  profiles : Option (List Profile) := none
deriving DecidableEq, Repr

/-- One element of the subscribers array. The code passes subscriber
records through verbatim; only the fields named in the data model are
listed, none is ever inspected by the client. -/
structure Subscriber where
  subscriberId : Option Int := none
  msisdn : Option String := none
  status : Option String := none
deriving DecidableEq, Repr

/-- One record of the subscriptions-summary data array; the client reads
only totalPointsInOnlineShop (line 223). -/
structure SubsProfile where
  totalPointsInOnlineShop : Option ℚ := none
deriving DecidableEq, Repr

/-- Body of the subscriptions-summary endpoint (a JSON object with a data
array, read at lines 221-223 and 237). -/
structure SubsResp where
  data : Option (List SubsProfile) := none
deriving DecidableEq, Repr

/-- Invoice-info payload fields read by the unpaid-bills loop
(lines 327-343). -/
structure InvoiceData where
  totalBalanceAmount : Option ℚ := none
  totalBalanceServices : Option ℚ := none
  totalBalanceInstallments : Option ℚ := none
  dueDate : Option Int := none
  hasInvoicesOnProfile : Option Bool := none
deriving DecidableEq, Repr

/-- Body of the invoice-info endpoint: a JSON object whose data field
holds the invoice payload (line 320); none models a missing or null data
field, which the loop skips (line 323). -/
structure InvoiceResp where
  data : Option InvoiceData := none
deriving DecidableEq, Repr

/-- The nested currentUser object of the user-data endpoint
(lines 120-122 and 227-233). -/
structure CurrentUser where
  ssoId : Option Int := none
  username : Option String := none
  email : Option String := none
  firstName : Option String := none
  lastName : Option String := none
  primaryMsisdn : Option String := none
  customerType : Option String := none
deriving DecidableEq, Repr

/-- The data object of the user-data endpoint (line 118). -/
structure UserDataBody where
  isUserLogged : Option Bool := none
  currentUser : Option CurrentUser := none
deriving DecidableEq, Repr

/-- Body of the user-data endpoint. -/
structure UserDataResp where
  data : Option UserDataBody := none
deriving DecidableEq, Repr

/-- Mutable client state set in OrangeAPI.__init__ (lines 48-50):
authenticated flag, sso id, and the stored current-user dictionary
(empty dictionary initially, modelled as the all-none record). -/
structure AuthState where
  authenticated : Bool
  sso_id : Option Int
  user_data : CurrentUser
deriving DecidableEq, Repr

/-- Initial state from __init__: not authenticated, no sso id, empty
user-data dictionary. -/
def initState : AuthState :=
  { authenticated := false, sso_id := none, user_data := {} }

/-- Environment for one run of authenticate(): outcomes of the login-page
GET (step 1), the credential POST (step 2) and the user-data verification
GET (step 3). -/
structure AuthEnv where
  loginPage : HtmlHttp
  loginPost : HtmlHttp
  userData : Http UserDataResp

/-- Embedding of OrangeAPI._fetch_user_data (lines 140-156): on HTTP 200
return the parsed body (a parse failure raises), otherwise raise. -/
def fetch_user_data (h : Http UserDataResp) : Except Unit UserDataResp :=
  match h with
  | .response s b => if s = 200 then b else .error ()
  | .netError => .error ()

/-- Truthiness test at line 118 of api.py:
user_data and user_data.get("data", \x7b\x7d).get("isUserLogged"). -/
def userLoggedGuard (ud : UserDataResp) : Bool :=
  match ud.data with
  | some d => d.isUserLogged.getD false
  | none => false

/-- Extraction at line 120: user_data.get("data", \x7b\x7d).get("currentUser", \x7b\x7d). -/
def currentUserOf (ud : UserDataResp) : CurrentUser :=
  ((ud.data.getD {}).currentUser).getD {}

/-- Embedding of OrangeAPI.authenticate (lines 52-138). Returns the
boolean outcome (or an exception, re-raised by the handlers at
lines 133-138) together with the post-state. -/
def authenticate (st : AuthState) (env : AuthEnv) :
    Except Unit Bool × AuthState :=
  match env.loginPage with
  | .netError => (.error (), st)
  | .response s1 =>
    if s1 ≠ 200 then (.ok false, st)
    else
      match env.loginPost with
      | .netError => (.error (), st)
      | .response s2 =>
        if s2 ≠ 200 then (.ok false, st)
        else
          match fetch_user_data env.userData with
          | .error e => (.error e, st)
          | .ok ud =>
            if userLoggedGuard ud then
              let cu := currentUserOf ud
              (.ok true,
               { authenticated := true, sso_id := cu.ssoId, user_data := cu })
            else (.ok false, st)

/-- Shared shape of the three tolerant section fetchers: on HTTP 200
return the parsed body (a parse failure raises), on any other status
return the section default, on a transport error raise. -/
def sectionGet (default : A) (h : Http A) : Except Unit A :=
  match h with
  | .response s b => if s = 200 then b else .ok default
  | .netError => .error ()

/-- Embedding of OrangeAPI._fetch_profiles (lines 252-259): non-200
degrades to the empty object. -/
def fetch_profiles (h : Http ProfilesResp) : Except Unit ProfilesResp :=
  sectionGet {} h

/-- Embedding of OrangeAPI._fetch_subscribers (lines 261-268): non-200
degrades to the empty list. -/
def fetch_subscribers (h : Http (List Subscriber)) :
    Except Unit (List Subscriber) :=
  sectionGet [] h

/-- Embedding of OrangeAPI._fetch_subscriptions_summary (lines 270-277):
non-200 degrades to the empty object. -/
def fetch_subscriptions_summary (h : Http SubsResp) : Except Unit SubsResp :=
  sectionGet {} h

/-- One value of the by_profile mapping (lines 338-345). -/
structure UnpaidBillRecord where
  amount : ℚ
  services : ℚ
  installments : ℚ
  due_date : Option String
  has_invoices : Bool
  profile_name : String
deriving DecidableEq, Repr

/-- The unpaid_bills accumulator (lines 303-307). The by_profile mapping
is an insertion-ordered association list, matching Python dict semantics. -/
structure UnpaidBills where
  total_amount : ℚ
  total_count : Nat
  by_profile : List (String × UnpaidBillRecord)
deriving DecidableEq, Repr

/-- Python dict assignment d[k] = v: replace in place when the key is
present, append otherwise. -/
def dictInsert (m : List (String × UnpaidBillRecord)) (k : String)
    (v : UnpaidBillRecord) : List (String × UnpaidBillRecord) :=
  match m with
  | [] => [(k, v)]
  | (k1, v1) :: rest =>
    if k1 = k then (k, v) :: rest else (k1, v1) :: dictInsert rest k v

/-- Days-since-epoch to civil (year, month, day), the standard civil
calendar algorithm; this is the date arithmetic performed by
datetime.fromtimestamp(...).strftime at line 336. -/
def civilFromDays (z : Int) : Int × Nat × Nat :=
  let zs := z + 719468
  let era := Int.fdiv zs 146097
  let doe : Nat := (zs - era * 146097).toNat
  let yoe : Nat := (doe - doe / 1460 + doe / 36524 - doe / 146096) / 365
  let y : Int := (yoe : Int) + era * 400
  let doy : Nat := doe - (365 * yoe + yoe / 4 - yoe / 100)
  let mp : Nat := (5 * doy + 2) / 153
  let d : Nat := doy - (153 * mp + 2) / 5 + 1
  let m : Nat := if mp < 10 then mp + 3 else mp - 9
  (if m ≤ 2 then y + 1 else y, m, d)

/-- Zero-pad a month or day number to two digits, as strftime %m and %d do. -/
def pad2 (n : Nat) : String :=
  if n < 10 then "0" ++ toString n else toString n

/-- Format a days-since-epoch value in the %Y-%m-%d style of line 336. -/
def formatYmd (z : Int) : String :=
  match civilFromDays z with
  | (y, m, d) => toString y ++ "-" ++ pad2 m ++ "-" ++ pad2 d

/-- Embedding of line 336 of api.py:
datetime.fromtimestamp(due_date_ts / 1000).strftime("%Y-%m-%d").
fromtimestamp converts through the LOCAL time zone, so the resulting
calendar day depends on the UTC offset tz (in seconds) of the machine:
the local day number is the floor of (ts/1000 + tz)/86400, computed here
exactly over the integers. -/
def dueDateString (tz : Int) (ts : Int) : String :=
  formatYmd (Int.fdiv (ts + 1000 * tz) 86400000)

/-- Body of the per-profile loop of OrangeAPI._fetch_unpaid_bills
(lines 309-354), processing one profile against the invoice-fetch
environment inv. Transport errors and parse failures inside the loop
body are swallowed by the per-profile handler at lines 352-354. -/
def processProfile (inv : Int → Http InvoiceResp) (tz : Int)
    (acc : UnpaidBills) (profile : Profile) : UnpaidBills :=
  match profile.id with
  | none => acc
  | some pid =>
    if pid = 0 then acc
    else
      match inv pid with
      | .netError => acc
      | .response s b =>
        if s = 200 then
          match b with
          | .error _ => acc
          | .ok resp =>
            match resp.data with
            | none => acc
            | some d =>
              let total_balance := d.totalBalanceAmount.getD 0
              if total_balance > 0 then
                let due_date_str : Option String :=
                  match d.dueDate with
                  | some ts => if ts ≠ 0 then some (dueDateString tz ts) else none
                  | none => none
                let r : UnpaidBillRecord :=
                  { amount := total_balance
                    services := d.totalBalanceServices.getD 0
                    installments := d.totalBalanceInstallments.getD 0
                    due_date := due_date_str
                    has_invoices := d.hasInvoicesOnProfile.getD false
                    profile_name := profile.name.getD "Unknown" }
                { total_amount := acc.total_amount + total_balance
                  total_count := acc.total_count + 1
                  by_profile := dictInsert acc.by_profile (toString pid) r }
              else acc
        else acc

/-- Embedding of OrangeAPI._fetch_unpaid_bills (lines 279-356): fold the
per-profile loop over the profile list, starting from the zero totals. -/
def fetch_unpaid_bills (inv : Int → Http InvoiceResp) (tz : Int)
    (profiles : List Profile) : UnpaidBills :=
  profiles.foldl (processProfile inv tz)
    { total_amount := 0, total_count := 0, by_profile := [] }

/-- The user block of the snapshot (lines 226-234). -/
structure UserOut where
  sso_id : Option Int
  username : Option String
  email : Option String
  first_name : Option String
  last_name : Option String
  primary_msisdn : Option String
  customer_type : Option String
deriving DecidableEq, Repr

/-- The summary block of the snapshot (lines 239-245). -/
structure Summary where
  total_profiles : Nat
  total_subscribers : Nat
  total_loyalty_points : ℚ
  total_unpaid_amount : ℚ
  total_unpaid_count : Nat
deriving DecidableEq, Repr

/-- The snapshot returned by get_data (lines 225-246). -/
structure Snapshot where
  user : UserOut
  profiles : List Profile
  subscribers : List Subscriber
  subscriptions_summary : List SubsProfile
  unpaid_bills : UnpaidBills
  summary : Summary
deriving DecidableEq, Repr

/-- Environment for one run of get_data: the authentication exchanges,
the three section fetch outcomes, the per-profile invoice outcomes, and
the UTC offset (seconds) of the local time zone used by the date
conversion. -/
structure Env where
  auth : AuthEnv
  profilesHttp : Http ProfilesResp
  subscribersHttp : Http (List Subscriber)
  subscriptionsHttp : Http SubsResp
  invoiceHttp : Int → Http InvoiceResp
  tz : Int

/-- The snapshot assembly of OrangeAPI.get_data (lines 216-246): derive
the profile list, run the unpaid-bills loop, total the loyalty points and
build the returned dictionary. -/
def buildSnapshot (st : AuthState) (env : Env) (profilesData : ProfilesResp)
    (subscribersData : List Subscriber) (subscriptionsData : SubsResp) :
    Snapshot :=
  let profilesList := profilesData.profiles.getD []
  let unpaidBillsData := fetch_unpaid_bills env.invoiceHttp env.tz profilesList
  let totalLoyaltyPoints : ℚ :=
    (subscriptionsData.data.getD []).foldl
      (fun acc p => acc + p.totalPointsInOnlineShop.getD 0) 0
  { user :=
      { sso_id := st.user_data.ssoId
        username := st.user_data.username
        email := st.user_data.email
        first_name := st.user_data.firstName
        last_name := st.user_data.lastName
        primary_msisdn := st.user_data.primaryMsisdn
        customer_type := st.user_data.customerType }
    profiles := profilesList
    subscribers := subscribersData
    subscriptions_summary := subscriptionsData.data.getD []
    unpaid_bills := unpaidBillsData
    summary :=
      { total_profiles := profilesList.length
        total_subscribers := subscribersData.length
        total_loyalty_points := totalLoyaltyPoints
        total_unpaid_amount := unpaidBillsData.total_amount
        total_unpaid_count := unpaidBillsData.total_count } }

/-- The try-block of OrangeAPI.get_data (lines 203-250): run the three
tolerant section fetchers, then assemble the snapshot. Any exception
propagates (the handler at lines 248-250 logs and re-raises). -/
def get_data_body (st : AuthState) (env : Env) : Except Unit Snapshot :=
  match fetch_profiles env.profilesHttp with
  | .error e => .error e
  | .ok profilesData =>
    match fetch_subscribers env.subscribersHttp with
    | .error e => .error e
    | .ok subscribersData =>
      match fetch_subscriptions_summary env.subscriptionsHttp with
      | .error e => .error e
      | .ok subscriptionsData =>
        .ok (buildSnapshot st env profilesData subscribersData subscriptionsData)

/-- Embedding of OrangeAPI.get_data (lines 158-250). When the state is
not authenticated, authenticate() is awaited first (lines 200-201); its
BOOLEAN RESULT IS DISCARDED by the code, only a raised exception stops
the cycle. Then the try-block runs with the resulting state. -/
def get_data (st : AuthState) (env : Env) :
    Except Unit Snapshot × AuthState :=
  if st.authenticated then (get_data_body st env, st)
  else
    match authenticate st env.auth with
    | (.error e, st1) => (.error e, st1)
    | (.ok _, st1) => (get_data_body st1 env, st1)

/-! Property definitions used by the theorem statements. -/

/-- Every record of a by_profile mapping has strictly positive amount. -/
def allAmountsPos (u : UnpaidBills) : Bool :=
  u.by_profile.all fun p => decide (0 < p.2.amount)

/-- Arithmetic sum of the amount field over all values of a by_profile
mapping. -/
def sumAmounts (m : List (String × UnpaidBillRecord)) : ℚ :=
  (m.map fun p => p.2.amount).sum

/-- Two profiles whose ids render to the same by_profile key. -/
def idConflict (a b : Profile) : Bool :=
  match a.id, b.id with
  | some i, some j => toString i == toString j
  | _, _ => false

/-- The truthiness guard at lines 310-312 of the loop: the id of a
profile when it is present and truthy (a Python int is falsy exactly when
it is zero), none otherwise. -/
def fetchedIdOf (p : Profile) : Option Int :=
  match p.id with
  | some pid => if pid = 0 then none else some pid
  | none => none

/-- The profile ids for which the loop of _fetch_unpaid_bills reaches the
invoice request: exactly those that pass the truthiness guard at
lines 310-312. -/
def fetchedIds (profiles : List Profile) : List Int :=
  profiles.filterMap fetchedIdOf

/-- A per-profile invoice exchange that the loop counts as a failure: a
transport error or parse failure (an exception, lines 352-354) or a
non-200 status (line 349). -/
def invoiceFailure (h : Http InvoiceResp) : Bool :=
  match h with
  | .netError => true
  | .response s b =>
    if s = 200 then
      match b with
      | .error _ => true
      | .ok _ => false
    else true

/-- An HTTP exchange that produced a response with a non-200 status: the
failure kind the section fetchers tolerate by degrading to the empty
result (api.py lines 257-259, 266-268, 275-277). -/
def non200 (h : Http A) : Bool :=
  match h with
  | .response s _ => decide (s ≠ 200)
  | .netError => false

/-- The stored identity is non-null: the user-data dictionary kept by the
client differs from the empty dictionary it is initialised with. -/
def identityPresent (st : AuthState) : Prop :=
  st.user_data ≠ ({} : CurrentUser)

/-- Client states reachable from construction through completed
operations (authenticate and get_data runs against arbitrary
environments). -/
inductive Reachable : AuthState → Prop where
  | init : Reachable initState
  | auth (st : AuthState) (env : AuthEnv) :
      Reachable st → Reachable (authenticate st env).2
  | poll (st : AuthState) (env : Env) :
      Reachable st → Reachable (get_data st env).2

/-! Concrete test data used by witnesses and counterexamples. -/

/-- A populated current-user object. -/
def cuGood : CurrentUser :=
  { ssoId := some 12345, username := some "john.doe" }

/-- A state that has completed a successful authentication. -/
def stAuth : AuthState :=
  { authenticated := true, sso_id := some 12345, user_data := cuGood }

/-- Authentication exchanges of a fully successful login. -/
def envGoodAuth : AuthEnv :=
  { loginPage := .response 200
    loginPost := .response 200
    userData := .response 200 (.ok
      { data := some { isUserLogged := some true, currentUser := some cuGood } }) }

/-- Authentication exchanges of a rejected login: both HTTP steps return
200 but the verification body carries isUserLogged false. -/
def envReject : AuthEnv :=
  { loginPage := .response 200
    loginPost := .response 200
    userData := .response 200 (.ok { data := some { isUserLogged := some false } }) }

/-- Verification body that reports a logged-in user but carries no
currentUser object. -/
def envDegen : AuthEnv :=
  { loginPage := .response 200
    loginPost := .response 200
    userData := .response 200 (.ok { data := some { isUserLogged := some true } }) }

/-- Both login steps succeed with 200, the verification GET returns 500. -/
def envVerify500 : AuthEnv :=
  { loginPage := .response 200
    loginPost := .response 200
    userData := .response 500 (.ok {}) }

/-- The profile of the worked example in the specification. -/
def profC8 : Profile := { id := some 100000001, name := some "John Doe" }

/-- Invoice environment of the worked example: profile 100000001 answers
200 with totalBalanceAmount 129.41 and dueDate 1771200000000 ms. -/
def invC8 : Int → Http InvoiceResp := fun pid =>
  if pid = 100000001 then
    .response 200 (.ok
      { data := some { totalBalanceAmount := some 129.41
                       dueDate := some 1771200000000 } })
  else .netError

/-- Profiles body holding the example profile. -/
def pdA : ProfilesResp := { profiles := some [profC8] }

/-- One subscriber record. -/
def subA : Subscriber :=
  { subscriberId := some 456, msisdn := some "0700123456", status := some "ACTIVE" }

/-- Subscriptions-summary body with one record worth 4.38 points. -/
def sumdA : SubsResp := { data := some [{ totalPointsInOnlineShop := some 4.38 }] }

/-- A fully successful poll environment. -/
def envA : Env :=
  { auth := envGoodAuth
    profilesHttp := .response 200 (.ok pdA)
    subscribersHttp := .response 200 (.ok [subA])
    subscriptionsHttp := .response 200 (.ok sumdA)
    invoiceHttp := invC8
    tz := 0 }

/-- The snapshot of the fully successful poll. -/
def snapA : Snapshot := buildSnapshot stAuth envA pdA [subA] sumdA

/-- Same poll environment, except the subscribers endpoint answers 500. -/
def envB : Env := { envA with subscribersHttp := .response 500 (.ok []) }

/-- Same poll environment, except the profiles endpoint answers 500. -/
def envC : Env := { envA with profilesHttp := .response 500 (.ok pdA) }

/-- Same poll environment, except the subscriptions-summary endpoint
answers 503. -/
def envD : Env := { envA with subscriptionsHttp := .response 503 (.ok sumdA) }

/-- Poll environment whose profiles fetch fails at the transport level. -/
def envNetProfiles : Env := { envA with profilesHttp := .netError }

/-- A profile id that occurs twice in one profiles list. -/
def profDup : Profile := { id := some 7, name := some "Dup" }

/-- Invoice environment answering profile 7 with a balance of 10. -/
def invDup : Int → Http InvoiceResp := fun pid =>
  if pid = 7 then
    .response 200 (.ok { data := some { totalBalanceAmount := some 10 } })
  else .netError

/-- Poll environment whose profiles list repeats profile 7. -/
def envDup : Env :=
  { auth := envGoodAuth
    profilesHttp := .response 200 (.ok { profiles := some [profDup, profDup] })
    subscribersHttp := .response 200 (.ok [])
    subscriptionsHttp := .response 200 (.ok {})
    invoiceHttp := invDup
    tz := 0 }

/-- The snapshot produced by the duplicated-profile poll. -/
def snapDup : Snapshot :=
  buildSnapshot stAuth envDup { profiles := some [profDup, profDup] } [] {}

/-- A profile whose id is the integer 0 (non-null, but falsy in Python). -/
def profZero : Profile := { id := some 0, name := some "Zero" }

/-- Invoice environment that would answer profile 0 with a positive
balance, were it ever asked. -/
def invZero : Int → Http InvoiceResp := fun pid =>
  if pid = 0 then
    .response 200 (.ok { data := some { totalBalanceAmount := some 50 } })
  else .netError

/-- A profile whose invoice fetch fails with a 500. -/
def profFail : Profile := { id := some 5, name := some "Bad" }

/-- Invoice environment where profile 5 fails with 500 and the example
profile succeeds. -/
def invW : Int → Http InvoiceResp := fun pid =>
  if pid = 5 then .response 500 (.ok {}) else invC8 pid

/-- The unpaid-bill record of the worked example, parametrised by the
date string the local time zone produces. -/
def recC8 (d : String) : UnpaidBillRecord :=
  { amount := 129.41, services := 0, installments := 0,
    due_date := some d, has_invoices := false, profile_name := "John Doe" }

/-- Poll environment of a rejected login followed by sections that all
answer 302 (the portal redirecting an unauthenticated session). -/
def envRej : Env :=
  { auth := envReject
    profilesHttp := .response 302 (.ok {})
    subscribersHttp := .response 302 (.ok [])
    subscriptionsHttp := .response 302 (.ok {})
    invoiceHttp := fun _ => .netError
    tz := 0 }

/-! Helper lemmas. -/

/-- A run of authenticate either leaves the state unchanged or produces a
state whose authenticated flag is set. -/
theorem authenticate_snd (st : AuthState) (env : AuthEnv) :
    (authenticate st env).2 = st ∨ (authenticate st env).2.authenticated = true := by
  unfold authenticate
  cases env.loginPage with
  | netError => exact Or.inl rfl
  | response s1 =>
    by_cases h1 : s1 ≠ 200
    · simp only [if_pos h1]
      exact Or.inl trivial
    · simp only [if_neg h1]
      cases env.loginPost with
      | netError => exact Or.inl rfl
      | response s2 =>
        by_cases h2 : s2 ≠ 200
        · simp only [if_pos h2]
          exact Or.inl trivial
        · simp only [if_neg h2]
          cases fetch_user_data env.userData with
          | error e => exact Or.inl rfl
          | ok ud =>
            by_cases hg : userLoggedGuard ud = true
            · simp only [if_pos hg]
              exact Or.inr trivial
            · simp only [if_neg hg]
              exact Or.inl trivial

/-- A run of get_data either leaves the state unchanged or leaves the
state of the implicit authentication. -/
theorem get_data_snd (st : AuthState) (env : Env) :
    (get_data st env).2 = st ∨ (get_data st env).2 = (authenticate st env.auth).2 := by
  unfold get_data
  split
  · exact Or.inl rfl
  · split
    next heq => exact Or.inr (by rw [heq])
    next heq => exact Or.inr (by rw [heq])

/-- If get_data returned a snapshot, some state ran the try-block to it. -/
theorem get_data_ok (st : AuthState) (env : Env) (snap : Snapshot)
    (h : (get_data st env).1 = .ok snap) :
    ∃ st1, get_data_body st1 env = .ok snap := by
  unfold get_data at h
  split at h
  · exact ⟨st, h⟩
  · split at h
    · exact absurd h (by simp)
    · exact ⟨_, h⟩

/-- Inversion on a successful try-block run: all three section fetchers
completed without raising and the snapshot is the assembled one. -/
theorem get_data_body_ok (st : AuthState) (env : Env) (snap : Snapshot)
    (h : get_data_body st env = .ok snap) :
    ∃ pd sd ud, fetch_profiles env.profilesHttp = .ok pd ∧
      fetch_subscribers env.subscribersHttp = .ok sd ∧
      fetch_subscriptions_summary env.subscriptionsHttp = .ok ud ∧
      snap = buildSnapshot st env pd sd ud := by
  unfold get_data_body at h
  split at h
  · exact absurd h (by simp)
  next pd hpd =>
    split at h
    · exact absurd h (by simp)
    next sd hsd =>
      split at h
      · exact absurd h (by simp)
      next ud hud =>
        refine ⟨pd, sd, ud, hpd, hsd, hud, ?_⟩
        injection h with h2
        exact h2.symm

/-- Membership after a Python dict assignment. -/
theorem mem_dictInsert (m : List (String × UnpaidBillRecord)) (k : String)
    (v : UnpaidBillRecord) (p : String × UnpaidBillRecord)
    (hp : p ∈ dictInsert m k v) : p ∈ m ∨ p = (k, v) := by
  induction m with
  | nil =>
    simp only [dictInsert, List.mem_singleton] at hp
    exact Or.inr hp
  | cons a t ih =>
    obtain ⟨k1, v1⟩ := a
    simp only [dictInsert] at hp
    split at hp
    · rcases List.mem_cons.mp hp with h | h
      · exact Or.inr h
      · exact Or.inl (List.mem_cons_of_mem _ h)
    · rcases List.mem_cons.mp hp with h | h
      · exact Or.inl (by simp [h])
      · rcases ih h with h2 | h2
        · exact Or.inl (List.mem_cons_of_mem _ h2)
        · exact Or.inr h2

/-- Assignment of a fresh key appends. -/
theorem dictInsert_of_notMem (m : List (String × UnpaidBillRecord))
    (k : String) (v : UnpaidBillRecord) (h : k ∉ m.map Prod.fst) :
    dictInsert m k v = m ++ [(k, v)] := by
  induction m with
  | nil => rfl
  | cons a t ih =>
    obtain ⟨k1, v1⟩ := a
    simp only [List.map_cons, List.mem_cons] at h
    push_neg at h
    simp only [dictInsert]
    rw [if_neg (fun he => h.1 he.symm)]
    simp [ih h.2]

/-- One loop iteration either leaves the accumulator unchanged, or the
profile id is truthy and a record of positive amount is inserted while
both running totals advance by that record. -/
theorem processProfile_shape (inv : Int → Http InvoiceResp) (tz : Int)
    (acc : UnpaidBills) (profile : Profile) :
    processProfile inv tz acc profile = acc ∨
    ∃ pid r, profile.id = some pid ∧ pid ≠ 0 ∧ 0 < r.amount ∧
      invoiceFailure (inv pid) = false ∧
      processProfile inv tz acc profile =
        { total_amount := acc.total_amount + r.amount
          total_count := acc.total_count + 1
          by_profile := dictInsert acc.by_profile (toString pid) r } := by
  simp only [processProfile]
  split
  · exact Or.inl rfl
  next pid hid =>
    split
    next hz => exact Or.inl rfl
    next hz =>
      split
      · exact Or.inl rfl
      next s b hinv =>
        split
        next hs =>
          split
          · exact Or.inl rfl
          next resp hb =>
            split
            · exact Or.inl rfl
            next d hdata =>
              split
              next hpos =>
                refine Or.inr ⟨pid,
                  { amount := d.totalBalanceAmount.getD 0
                    services := d.totalBalanceServices.getD 0
                    installments := d.totalBalanceInstallments.getD 0
                    due_date :=
                      match d.dueDate with
                      | some ts => if ts ≠ 0 then some (dueDateString tz ts) else none
                      | none => none
                    has_invoices := d.hasInvoicesOnProfile.getD false
                    profile_name := profile.name.getD "Unknown" },
                  hid, hz, hpos, ?_, rfl⟩
                rw [hinv]
                simp [invoiceFailure, hs]
              next => exact Or.inl rfl
        next => exact Or.inl rfl

/-- Folding the loop preserves positivity of every recorded amount. -/
theorem fold_pos (inv : Int → Http InvoiceResp) (tz : Int) :
    ∀ (ps : List Profile) (acc : UnpaidBills),
      (∀ p ∈ acc.by_profile, 0 < p.2.amount) →
      ∀ p ∈ (ps.foldl (processProfile inv tz) acc).by_profile, 0 < p.2.amount := by
  intro ps
  induction ps with
  | nil => intro acc hacc; exact hacc
  | cons q qs ih =>
    intro acc hacc
    rw [List.foldl_cons]
    apply ih
    rcases processProfile_shape inv tz acc q with heq | ⟨pid, r, _, _, hpos, _, heq⟩
    · rw [heq]; exact hacc
    · rw [heq]
      intro p hp
      rcases mem_dictInsert _ _ _ _ hp with h | h
      · exact hacc p h
      · rw [h]; exact hpos

/-- Folding the loop keeps the running totals equal to the sum and size
of the mapping, provided the ids still to be processed never render to a
key already present and are pairwise unambiguous. -/
theorem fold_totals (inv : Int → Http InvoiceResp) (tz : Int) :
    ∀ (ps : List Profile) (acc : UnpaidBills),
      acc.total_amount = sumAmounts acc.by_profile →
      acc.total_count = acc.by_profile.length →
      (∀ p ∈ ps, ∀ i, p.id = some i → (toString i) ∉ acc.by_profile.map Prod.fst) →
      List.Pairwise (fun a b => idConflict a b = false) ps →
      (ps.foldl (processProfile inv tz) acc).total_amount =
        sumAmounts (ps.foldl (processProfile inv tz) acc).by_profile ∧
      (ps.foldl (processProfile inv tz) acc).total_count =
        (ps.foldl (processProfile inv tz) acc).by_profile.length := by
  intro ps
  induction ps with
  | nil => intro acc h1 h2 _ _; exact ⟨h1, h2⟩
  | cons q qs ih =>
    intro acc h1 h2 h3 h4
    rw [List.foldl_cons]
    rcases processProfile_shape inv tz acc q with heq | ⟨pid, r, hid, hz, hpos, _, heq⟩
    · rw [heq]
      exact ih acc h1 h2 (fun p hp => h3 p (List.mem_cons_of_mem _ hp)) h4.of_cons
    · rw [heq]
      have hfresh : (toString pid) ∉ acc.by_profile.map Prod.fst :=
        h3 q (List.mem_cons_self _ _) pid hid
      have hins := dictInsert_of_notMem acc.by_profile (toString pid) r hfresh
      apply ih
      · simp [hins, sumAmounts, h1]
      · simp [hins, h2]
      · intro p hp i hpid
        rw [hins]
        simp only [List.map_append, List.map_cons, List.map_nil, List.mem_append,
          List.mem_singleton]
        push_neg
        refine ⟨h3 p (List.mem_cons_of_mem _ hp) i hpid, ?_⟩
        have hrel : idConflict q p = false := (List.pairwise_cons.mp h4).1 p hp
        simp only [idConflict, hid, hpid] at hrel
        intro hcontra
        rw [hcontra] at hrel
        simp at hrel
      · exact (List.pairwise_cons.mp h4).2

/-- A loop iteration whose invoice exchange fails leaves the accumulator
unchanged. -/
theorem processProfile_of_failure (inv : Int → Http InvoiceResp) (tz : Int)
    (acc : UnpaidBills) (q : Profile) (pid : Int)
    (hid : q.id = some pid) (hfail : invoiceFailure (inv pid) = true) :
    processProfile inv tz acc q = acc := by
  rcases processProfile_shape inv tz acc q with heq | ⟨pid2, r, hid2, _, _, hok, _⟩
  · exact heq
  · rw [hid] at hid2
    injection hid2 with h
    subst h
    rw [hok] at hfail
    exact absurd hfail (by simp)

/-- Membership in the fetched ids is preserved by widening the list. -/
theorem fetchedIds_tail (q : Profile) (qs : List Profile) (pid : Int)
    (h : pid ∈ fetchedIds qs) : pid ∈ fetchedIds (q :: qs) := by
  simp only [fetchedIds, List.mem_filterMap] at h ⊢
  obtain ⟨p, hp, hf⟩ := h
  exact ⟨p, List.mem_cons_of_mem _ hp, hf⟩

/-- The loop only consults the invoice environment on the fetched ids:
two environments that agree there fold identically. -/
theorem foldl_invoice_agree (inv inv2 : Int → Http InvoiceResp) (tz : Int) :
    ∀ (ps : List Profile) (acc : UnpaidBills),
      (∀ pid ∈ fetchedIds ps, inv pid = inv2 pid) →
      ps.foldl (processProfile inv tz) acc = ps.foldl (processProfile inv2 tz) acc := by
  intro ps
  induction ps with
  | nil => intro acc _; rfl
  | cons q qs ih =>
    intro acc hagree
    rw [List.foldl_cons, List.foldl_cons]
    have hqmem : ∀ pid, q.id = some pid → pid ≠ 0 → pid ∈ fetchedIds (q :: qs) := by
      intro pid hid hz
      simp only [fetchedIds, List.mem_filterMap]
      exact ⟨q, List.mem_cons_self _ _, by simp [fetchedIdOf, hid, hz]⟩
    have hq : processProfile inv tz acc q = processProfile inv2 tz acc q := by
      rcases hid : q.id with _ | pid
      · simp [processProfile, hid]
      · by_cases hz : pid = 0
        · simp [processProfile, hid, hz]
        · have := hagree pid (hqmem pid hid hz)
          simp [processProfile, hid, this]
    rw [hq]
    exact ih _ (fun pid hpid => hagree pid (fetchedIds_tail q qs pid hpid))

/-- Characterisation of the fetched ids: exactly the non-null, non-zero
profile ids of the list. -/
theorem fetchedIds_iff (profiles : List Profile) (pid : Int) :
    pid ∈ fetchedIds profiles ↔
      pid ≠ 0 ∧ ∃ p, p ∈ profiles ∧ p.id = some pid := by
  simp only [fetchedIds, List.mem_filterMap]
  constructor
  · rintro ⟨p, hp, hf⟩
    rcases hid : p.id with _ | i
    · simp only [fetchedIdOf, hid] at hf
      exact absurd hf (by simp)
    · simp only [fetchedIdOf, hid] at hf
      by_cases hz : i = 0
      · rw [if_pos hz] at hf
        exact absurd hf (by simp)
      · rw [if_neg hz] at hf
        injection hf with hf2
        subst hf2
        exact ⟨hz, p, hp, hid⟩
  · rintro ⟨hz, p, hp, hid⟩
    exact ⟨p, hp, by simp [fetchedIdOf, hid, hz]⟩

/-- A tolerant section fetcher that completed on a non-200 response
returned the section default. -/
theorem sectionGet_non200 (default : A) (h : Http A) (v : A)
    (hv : sectionGet default h = Except.ok v) (hn : non200 h = true) :
    v = default := by
  cases h with
  | response s b =>
    simp only [non200, decide_eq_true_eq] at hn
    simp only [sectionGet, if_neg hn] at hv
    injection hv with h2
    exact h2.symm
  | netError => simp [non200] at hn

/-! Claim theorems. -/

/-- C5: authenticate() returns false without raising — leaving the
authenticated flag false — whenever the login-page GET or the credential
POST returns a non-200 status, or the verification response carries an
isUserLogged flag that is false or absent; in particular a login POST
returning 200 with isUserLogged false yields false, not an exception. -/
theorem authenticate_failure_returns_false (st : AuthState) (env : AuthEnv)
    (hst : st.authenticated = false)
    (hfail :
      (∃ s, env.loginPage = HtmlHttp.response s ∧ s ≠ 200) ∨
      (env.loginPage = HtmlHttp.response 200 ∧
        ∃ s, env.loginPost = HtmlHttp.response s ∧ s ≠ 200) ∨
      (env.loginPage = HtmlHttp.response 200 ∧ env.loginPost = HtmlHttp.response 200 ∧
        ∃ ud, env.userData = Http.response 200 (Except.ok ud) ∧
          userLoggedGuard ud = false)) :
    authenticate st env = (Except.ok false, st) ∧
    (authenticate st env).2.authenticated = false := by
  have hmain : authenticate st env = (Except.ok false, st) := by
    rcases hfail with ⟨s, hpage, hs⟩ | ⟨hpage, s, hpost, hs⟩ | ⟨hpage, hpost, ud, hud, hguard⟩
    · simp [authenticate, hpage, hs]
    · simp [authenticate, hpage, hpost, hs]
    · simp [authenticate, hpage, hpost, hud, fetch_user_data, hguard]
  exact ⟨hmain, by rw [hmain]; exact hst⟩

/-- C5 witness: a rejected login (200, 200, isUserLogged false) returns
false and leaves the flag false. -/
theorem authenticate_failure_returns_false_witness :
    authenticate initState envReject = (Except.ok false, initState) ∧
    (authenticate initState envReject).2.authenticated = false :=
  authenticate_failure_returns_false initState envReject rfl
    (Or.inr (Or.inr ⟨rfl, rfl, _, rfl, rfl⟩))

/-- C10: when the login-page GET and credential POST both return 200 but
the verification request returns a non-200 status, authenticate() raises
(it does not return false) and the authenticated flag remains false. -/
theorem authenticate_raises_on_verification_non200 (st : AuthState)
    (env : AuthEnv) (s : Nat) (b : Except Unit UserDataResp)
    (hst : st.authenticated = false)
    (hpage : env.loginPage = HtmlHttp.response 200)
    (hpost : env.loginPost = HtmlHttp.response 200)
    (hud : env.userData = Http.response s b)
    (hs : s ≠ 200) :
    authenticate st env = (Except.error (), st) ∧
    (authenticate st env).2.authenticated = false := by
  have hmain : authenticate st env = (Except.error (), st) := by
    simp [authenticate, hpage, hpost, hud, fetch_user_data, hs]
  exact ⟨hmain, by rw [hmain]; exact hst⟩

/-- C10 witness: verification answering 500 after two 200 steps raises. -/
theorem authenticate_raises_on_verification_non200_witness :
    authenticate initState envVerify500 = (Except.error (), initState) ∧
    (authenticate initState envVerify500).2.authenticated = false :=
  authenticate_raises_on_verification_non200 initState envVerify500 500
    (Except.ok {}) rfl rfl rfl rfl (by decide)

/-- C9 counterexample: a verification response with isUserLogged true but
no currentUser object completes authenticate() with the authenticated
flag set while the stored identity is still the empty dictionary, so the
claimed iff invariant fails after this completed operation. -/
theorem authenticated_with_empty_identity :
    (authenticate initState envDegen).1 = Except.ok true ∧
    (authenticate initState envDegen).2.authenticated = true ∧
    ¬ identityPresent (authenticate initState envDegen).2 := by
  refine ⟨rfl, rfl, ?_⟩
  intro h
  exact h rfl

/-- C9 (amended): after construction and after every completed operation,
a non-empty stored identity implies the authenticated flag is true; the
converse direction of the claimed iff can fail when a successful
verification carries an absent or empty currentUser object. -/
theorem identity_nonempty_implies_authenticated (st : AuthState)
    (hr : Reachable st) :
    identityPresent st → st.authenticated = true := by
  induction hr with
  | init => intro hid; exact absurd rfl hid
  | auth st0 env hr0 ih =>
    rcases authenticate_snd st0 env with h | h
    · rw [h]; exact ih
    · intro _; exact h
  | poll st0 env hr0 ih =>
    rcases get_data_snd st0 env with h | h
    · rw [h]; exact ih
    · rw [h]
      rcases authenticate_snd st0 env.auth with h2 | h2
      · rw [h2]; exact ih
      · intro _; exact h2

/-- C9 witness: the state reached by a fully successful authentication
has a non-empty identity, hence an authenticated flag. -/
theorem identity_nonempty_implies_authenticated_witness :
    (authenticate initState envGoodAuth).2.authenticated = true :=
  identity_nonempty_implies_authenticated _
    (Reachable.auth initState envGoodAuth Reachable.init)
    (by unfold identityPresent; decide)

/-- C1 counterexample: a transport error on the profiles fetch does NOT
degrade that section to an empty result — it aborts the whole cycle and
no snapshot is returned, refuting the claim for transport errors. -/
theorem collect_transport_error_aborts_cycle :
    (get_data stAuth envNetProfiles).1 = Except.error () := rfl

/-- C1 (amended): for each of the three section fetches, a non-200 HTTP
response degrades only that section to its empty result while the cycle
continues — whenever all three section fetchers complete without raising
(each answering 200 with a parsed body, or any non-200 status), collect()
returns the snapshot assembled from exactly those three outcomes, so
every section reflects its own fetch outcome, and each section whose
exchange was a non-200 response is the degraded empty one; a transport
error on a section fetch, by contrast, aborts the cycle. -/
theorem collect_section_non200_isolated (st : AuthState) (env : Env)
    (pd : ProfilesResp) (sd : List Subscriber) (ud : SubsResp)
    (hst : st.authenticated = true)
    (hp : fetch_profiles env.profilesHttp = Except.ok pd)
    (hs : fetch_subscribers env.subscribersHttp = Except.ok sd)
    (hsum : fetch_subscriptions_summary env.subscriptionsHttp = Except.ok ud) :
    (get_data st env).1 = Except.ok (buildSnapshot st env pd sd ud) ∧
    (non200 env.profilesHttp = true → pd = {}) ∧
    (non200 env.subscribersHttp = true → sd = []) ∧
    (non200 env.subscriptionsHttp = true → ud = {}) := by
  refine ⟨?_, ?_, ?_, ?_⟩
  · simp [get_data, hst, get_data_body, hp, hs, hsum]
  · exact fun hn => sectionGet_non200 ({} : ProfilesResp) env.profilesHttp pd hp hn
  · exact fun hn => sectionGet_non200 [] env.subscribersHttp sd hs hn
  · exact fun hn => sectionGet_non200 ({} : SubsResp) env.subscriptionsHttp ud hsum hn

/-- C1 witness: three concrete polls, one per failing section. With
subscribers answering 500 the snapshot has non-empty profiles and empty
subscribers; with profiles answering 500 the snapshot has empty profiles
and non-empty subscribers; with subscriptions-summary answering 503 that
section alone is empty. -/
theorem collect_section_non200_isolated_witness :
    (get_data stAuth envB).1 = Except.ok (buildSnapshot stAuth envB pdA [] sumdA) ∧
    (buildSnapshot stAuth envB pdA [] sumdA).subscribers = [] ∧
    (buildSnapshot stAuth envB pdA [] sumdA).profiles = [profC8] ∧
    (get_data stAuth envC).1 = Except.ok (buildSnapshot stAuth envC {} [subA] sumdA) ∧
    (buildSnapshot stAuth envC {} [subA] sumdA).profiles = [] ∧
    (buildSnapshot stAuth envC {} [subA] sumdA).subscribers = [subA] ∧
    (get_data stAuth envD).1 = Except.ok (buildSnapshot stAuth envD pdA [subA] {}) ∧
    (buildSnapshot stAuth envD pdA [subA] {}).subscriptions_summary = [] :=
  ⟨(collect_section_non200_isolated stAuth envB pdA [] sumdA rfl rfl rfl rfl).1,
   rfl, rfl,
   (collect_section_non200_isolated stAuth envC {} [subA] sumdA rfl rfl rfl rfl).1,
   rfl, rfl,
   (collect_section_non200_isolated stAuth envD pdA [subA] {} rfl rfl rfl rfl).1,
   rfl⟩

/-- C6 counterexample: a credentials-rejected outcome (authenticate
returning false) is NOT fatal to the poll cycle — get_data ignores the
boolean, proceeds to the section fetches and returns a snapshot,
refuting the claim that any authentication failure aborts the cycle. -/
theorem collect_proceeds_after_rejected_credentials :
    (authenticate initState envRej.auth).1 = Except.ok false ∧
    (get_data initState envRej).1 =
      Except.ok (buildSnapshot initState envRej {} [] {}) :=
  ⟨rfl, rfl⟩

/-- C6 (amended): when the session is not authenticated, collect() first
runs authentication; an exception raised there (a transport error) is
fatal — it propagates and no section fetch runs — but a
credentials-rejected outcome (authenticate returning false) is ignored:
the cycle proceeds to the section fetches with the unchanged state. -/
theorem collect_auth_exception_fatal_rejection_ignored (st : AuthState)
    (env : Env) (st1 : AuthState) (hst : st.authenticated = false) :
    (authenticate st env.auth = (Except.error (), st1) →
      get_data st env = (Except.error (), st1)) ∧
    (authenticate st env.auth = (Except.ok false, st1) →
      get_data st env = (get_data_body st1 env, st1)) := by
  constructor
  · intro h
    simp [get_data, hst, h]
  · intro h
    simp [get_data, hst, h]

/-- C6 witness: after the rejected login of envRej, get_data runs the
try-block rather than failing. -/
theorem collect_auth_exception_fatal_rejection_ignored_witness :
    get_data initState envRej = (get_data_body initState envRej, initState) :=
  (collect_auth_exception_fatal_rejection_ignored initState envRej
    initState rfl).2 rfl

/-- C2 (confirmed): in every snapshot returned by get_data, every record
of the unpaid-bills by_profile mapping has strictly positive amount — a
record is only created when the fetched totalBalanceAmount (with absent
or null collapsed to zero) is strictly greater than zero. -/
theorem unpaid_amounts_strictly_positive (st : AuthState) (env : Env)
    (snap : Snapshot) (h : (get_data st env).1 = Except.ok snap) :
    allAmountsPos snap.unpaid_bills = true := by
  obtain ⟨st1, hbody⟩ := get_data_ok st env snap h
  obtain ⟨pd, sd, ud, -, -, -, hsnap⟩ := get_data_body_ok st1 env snap hbody
  subst hsnap
  simp only [allAmountsPos, List.all_eq_true]
  intro p hp
  have hmem : p ∈ ((pd.profiles.getD []).foldl (processProfile env.invoiceHttp env.tz)
      { total_amount := 0, total_count := 0, by_profile := [] }).by_profile := by
    simpa [buildSnapshot, fetch_unpaid_bills] using hp
  have : 0 < p.2.amount :=
    fold_pos env.invoiceHttp env.tz (pd.profiles.getD []) _ (by simp) p hmem
  exact decide_eq_true this

/-- C2 witness: the snapshot of a successful poll with one positive
balance satisfies the positivity predicate. -/
theorem unpaid_amounts_strictly_positive_witness :
    allAmountsPos snapA.unpaid_bills = true :=
  unpaid_amounts_strictly_positive stAuth envA snapA rfl

/-- C3 counterexample: when the profiles list repeats an id, the running
totals double-count while the dict entry is overwritten, so the returned
snapshot has total_unpaid_amount 20 against a by_profile sum of 10 and
total_unpaid_count 2 against a single entry — refuting the claimed
equalities for that snapshot of collect(). -/
theorem totals_diverge_on_duplicate_profile_ids :
    (get_data stAuth envDup).1 = Except.ok snapDup ∧
    snapDup.summary.total_unpaid_amount = 20 ∧
    sumAmounts snapDup.unpaid_bills.by_profile = 10 ∧
    snapDup.summary.total_unpaid_count = 2 ∧
    snapDup.unpaid_bills.by_profile.length = 1 ∧
    snapDup.summary.total_unpaid_amount ≠ sumAmounts snapDup.unpaid_bills.by_profile ∧
    snapDup.summary.total_unpaid_count ≠ snapDup.unpaid_bills.by_profile.length := by
  refine ⟨rfl, ?_, ?_, ?_, ?_, ?_, ?_⟩ <;>
    norm_num [snapDup, buildSnapshot, fetch_unpaid_bills, processProfile,
      invDup, profDup, envDup, dictInsert, sumAmounts]

/-- C3 (amended): for every snapshot returned by get_data whose profiles
carry pairwise distinct rendered ids, summary.total_unpaid_amount equals
the sum of amount over the by_profile values and
summary.total_unpaid_count equals the number of by_profile entries;
a duplicated profile id breaks both equalities. -/
theorem totals_match_by_profile (st : AuthState) (env : Env)
    (snap : Snapshot) (h : (get_data st env).1 = Except.ok snap)
    (hdist : List.Pairwise (fun a b => idConflict a b = false) snap.profiles) :
    snap.summary.total_unpaid_amount = sumAmounts snap.unpaid_bills.by_profile ∧
    snap.summary.total_unpaid_count = snap.unpaid_bills.by_profile.length := by
  obtain ⟨st1, hbody⟩ := get_data_ok st env snap h
  obtain ⟨pd, sd, ud, -, -, -, hsnap⟩ := get_data_body_ok st1 env snap hbody
  subst hsnap
  have hdist2 : List.Pairwise (fun a b => idConflict a b = false)
      (pd.profiles.getD []) := hdist
  have hmain := fold_totals env.invoiceHttp env.tz (pd.profiles.getD [])
    { total_amount := 0, total_count := 0, by_profile := [] }
    (by simp [sumAmounts]) (by simp) (by simp) hdist2
  exact hmain

/-- C3 witness: the totals of the one-profile snapshot match its
by_profile mapping. -/
theorem totals_match_by_profile_witness :
    snapA.summary.total_unpaid_amount = sumAmounts snapA.unpaid_bills.by_profile ∧
    snapA.summary.total_unpaid_count = snapA.unpaid_bills.by_profile.length :=
  totals_match_by_profile stAuth envA snapA rfl
    (by simp [snapA, buildSnapshot, pdA])

/-- C4 (confirmed): a failing invoice fetch (non-200 or exception) for
one profile is skipped and never aborts the loop — the unpaid-bills
result is exactly the one obtained with that profile absent, so
by_profile keeps the entries of every other profile whose fetch
succeeded with positive balance. -/
theorem invoice_failure_per_profile_isolated (inv : Int → Http InvoiceResp)
    (tz : Int) (pre post : List Profile) (q : Profile) (pid : Int)
    (hid : q.id = some pid) (hfail : invoiceFailure (inv pid) = true) :
    fetch_unpaid_bills inv tz (pre ++ q :: post) =
      fetch_unpaid_bills inv tz (pre ++ post) := by
  unfold fetch_unpaid_bills
  rw [List.foldl_append, List.foldl_append, List.foldl_cons,
    processProfile_of_failure inv tz _ q pid hid hfail]

/-- C4 witness: with profile 5 failing on a 500 between successful
profiles, the result equals the run without profile 5. -/
theorem invoice_failure_per_profile_isolated_witness :
    fetch_unpaid_bills invW 0 [profC8, profFail] =
      fetch_unpaid_bills invW 0 [profC8] :=
  invoice_failure_per_profile_isolated invW 0 [profC8] [] profFail 5
    rfl (by decide)

/-- C7 counterexample: a profile whose id is the integer 0 has a non-null
id, yet the loop skips it — no invoice request is issued (the result does
not depend on what the endpoint would answer for id 0) and no record is
created even though the endpoint would report a positive balance —
refuting the claim that only null/absent ids are excluded. -/
theorem falsy_zero_id_profile_not_fetched :
    profZero.id = some 0 ∧
    fetchedIds [profZero] = [] ∧
    fetch_unpaid_bills invZero 0 [profZero] =
      fetch_unpaid_bills (fun _ => Http.netError) 0 [profZero] ∧
    (fetch_unpaid_bills invZero 0 [profZero]).by_profile = [] :=
  ⟨rfl, rfl, rfl, rfl⟩

/-- C7 (amended): the invoice loop issues a fetch for exactly the
profiles whose id is present AND truthy — the result depends only on the
invoice environment at those ids, and an id belongs to them iff it is
non-null and non-zero; profiles with a null, absent OR zero (falsy) id
are excluded. -/
theorem invoice_fetch_exactly_truthy_ids (inv inv2 : Int → Http InvoiceResp)
    (tz : Int) (profiles : List Profile)
    (hagree : ∀ pid ∈ fetchedIds profiles, inv pid = inv2 pid) :
    fetch_unpaid_bills inv tz profiles = fetch_unpaid_bills inv2 tz profiles ∧
    ∀ pid, pid ∈ fetchedIds profiles ↔
      pid ≠ 0 ∧ ∃ p, p ∈ profiles ∧ p.id = some pid :=
  ⟨foldl_invoice_agree inv inv2 tz profiles _ hagree,
   fun pid => fetchedIds_iff profiles pid⟩

/-- C7 witness: the truthy id 100000001 is fetched in a two-profile list
that also carries the falsy id 0. -/
theorem invoice_fetch_exactly_truthy_ids_witness :
    fetch_unpaid_bills invW 0 [profC8, profZero] =
      fetch_unpaid_bills invW 0 [profC8, profZero] ∧
    (100000001 : Int) ∈ fetchedIds [profC8, profZero] := by
  have h := invoice_fetch_exactly_truthy_ids invW invW 0 [profC8, profZero]
    (fun _ _ => rfl)
  exact ⟨h.1, (h.2 100000001).mpr ⟨by decide, profC8, by decide, rfl⟩⟩

/-- Calendar date of the example timestamp under UTC. -/
theorem dueDate_example_utc : dueDateString 0 1771200000000 = "2026-02-16" := by
  decide

/-- Calendar date of the example timestamp under Romania time (UTC+2). -/
theorem dueDate_example_bucharest :
    dueDateString 7200 1771200000000 = "2026-02-16" := by
  decide

/-- Calendar date of the example timestamp one hour west of UTC. -/
theorem dueDate_example_west :
    dueDateString (-3600) 1771200000000 = "2026-02-15" := by
  decide

/-- Rendering of the example profile id. -/
theorem toString_example_id : toString (100000001 : Int) = "100000001" := by
  decide

/-- C8 counterexample: for the example profile and invoice response, the
code (datetime.fromtimestamp on milliseconds 1771200000000) produces the
calendar date 2026-02-16 both under UTC and under the service region
Romania (UTC+2), not the claimed 2026-02-15. -/
theorem example_due_date_not_feb15 :
    (fetch_unpaid_bills invC8 0 [profC8]).by_profile =
      [("100000001", recC8 "2026-02-16")] ∧
    (fetch_unpaid_bills invC8 7200 [profC8]).by_profile =
      [("100000001", recC8 "2026-02-16")] ∧
    (recC8 "2026-02-16").due_date ≠ some "2026-02-15" := by
  refine ⟨?_, ?_, by decide⟩ <;>
    norm_num [fetch_unpaid_bills, processProfile, invC8, profC8, recC8,
      dictInsert, dueDate_example_utc, dueDate_example_bucharest,
      toString_example_id]

/-- C8 (amended): for profile 100000001 with invoice response
totalBalanceAmount 129.41 and dueDate 1771200000000, the unpaid-bills
result has by_profile mapping the key 100000001 to amount 129.41 and
total_amount 129.41 as claimed, while due_date is the LOCAL calendar date
of the timestamp: 2026-02-16 under UTC and under Romania time (UTC+2),
and 2026-02-15 only in a zone west of UTC such as UTC-1. -/
theorem example_record_timezone_dependent :
    fetch_unpaid_bills invC8 0 [profC8] =
      { total_amount := 129.41, total_count := 1,
        by_profile := [("100000001", recC8 "2026-02-16")] } ∧
    fetch_unpaid_bills invC8 7200 [profC8] =
      { total_amount := 129.41, total_count := 1,
        by_profile := [("100000001", recC8 "2026-02-16")] } ∧
    fetch_unpaid_bills invC8 (-3600) [profC8] =
      { total_amount := 129.41, total_count := 1,
        by_profile := [("100000001", recC8 "2026-02-15")] } := by
  refine ⟨?_, ?_, ?_⟩ <;>
    norm_num [fetch_unpaid_bills, processProfile, invC8, profC8, recC8,
      dictInsert, dueDate_example_utc, dueDate_example_bucharest,
      dueDate_example_west, toString_example_id]

end Orange
